import Mathlib

/-!
Verification development for the fastapi-crudo repository.

The Python sources under fast_api_crudo are shallowly embedded as
executable Lean definitions:

* router.py        — convert_pk_value, build_pk_filters, and the five CRUD
                     endpoint handlers (list, get, create, update, delete);
* auth.py          — require_auth and require_admin_dep over the session user;
* schema_factory.py — SA_TYPE_MAP, get_sa_type_info, is_auto_pk,
                     get_pk_columns, create_schemas_for_model;
* admin.py         — model discovery filtering and route registration.

Machine-level concerns (the SQLAlchemy engine, HTTP transport, pydantic
serialisation) are modelled by explicit data: a database is a list of
records, a record is an association list from column names to values, and
an endpoint is a pure function from session user, request data and database
to a result together with the resulting database state.  Python exceptions
that the code raises as HTTPException are an explicit error value; any
other uncaught Python exception (e.g. KeyError) is a distinct error value.
-/

namespace Crudo

/-! ## Character and string utilities

Python string primitives used by the source (str.split, substring
containment, str.upper/lower, int()) are re-implemented on lists of
characters so that every definition reduces inside the Lean kernel.
-/

/-- Uppercase a string, modelling Python str.upper on ASCII. -/
def upperStr (s : String) : String := String.mk (s.toList.map Char.toUpper)

/-- Lowercase a string, modelling Python str.lower on ASCII. -/
def lowerStr (s : String) : String := String.mk (s.toList.map Char.toLower)

/-- Is the first list a leading segment of the second one. -/
def leadsWith : List Char → List Char → Bool
  | [], _ => true
  | _ :: _, [] => false
  | a :: as, b :: bs => a == b && leadsWith as bs

/-- Does the pattern occur inside the list, modelling Python membership
on strings. -/
def containsCL (pat : List Char) : List Char → Bool
  | [] => pat.isEmpty
  | c :: rest => leadsWith pat (c :: rest) || containsCL pat rest

/-- Does the pattern string occur inside s, modelling the Python test
pat in s. -/
def strContains (s pat : String) : Bool := containsCL pat.toList s.toList

/-- Fuelled worker for pySplit.  The accumulator holds the current
segment reversed; a match of the separator at the current position closes
the segment, exactly like the leftmost-first semantics of Python
str.split. -/
def pySplitGo (sep : List Char) : Nat → List Char → List Char → List (List Char)
  | 0, acc, l => [acc.reverse ++ l]
  | _ + 1, acc, [] => [acc.reverse]
  | fuel + 1, acc, c :: rest =>
    if leadsWith sep (c :: rest) then
      acc.reverse :: pySplitGo sep fuel [] (List.drop sep.length (c :: rest))
    else
      pySplitGo sep fuel (c :: acc) rest

/-- Python str.split with a non-empty separator. -/
def pySplit (s sep : String) : List String :=
  if sep.toList.isEmpty then [s]
  else (pySplitGo sep.toList (s.toList.length + 1) [] s.toList).map String.mk

/-- Digit run to its numeric value. -/
def natOfDigits (cs : List Char) : Nat :=
  cs.foldl (fun a c => a * 10 + (c.toNat - 48)) 0

/-- Split on underscores; Python int() accepts single underscores strictly
between digits, which is equivalent to every underscore-separated group
being a non-empty digit run. -/
def splitUnderscore : List Char → List (List Char)
  | [] => [[]]
  | c :: rest =>
    let r := splitUnderscore rest
    if c == '_' then [] :: r
    else
      match r with
      | [] => [[c]]
      | g :: gs => (c :: g) :: gs

/-- Unsigned digit part of Python int(): non-empty digit groups separated
by single underscores. -/
def pyIntDigits (cs : List Char) : Option Nat :=
  let groups := splitUnderscore cs
  if groups.all (fun g => !g.isEmpty && g.all Char.isDigit) then
    some (natOfDigits groups.flatten)
  else
    none

/-- Python int(str): strip surrounding whitespace, optional sign, then a
valid digit run. -/
def pyInt (s : String) : Option Int :=
  let cs := ((s.toList.dropWhile Char.isWhitespace).reverse.dropWhile
    Char.isWhitespace).reverse
  match cs with
  | '+' :: rest => (pyIntDigits rest).map fun n => (n : Int)
  | '-' :: rest => (pyIntDigits rest).map fun n => -(n : Int)
  | rest => (pyIntDigits rest).map fun n => (n : Int)

/-- Code-point comparison of character lists, modelling Python string
ordering. -/
def charListLe : List Char → List Char → Bool
  | [], _ => true
  | _ :: _, [] => false
  | a :: as, b :: bs =>
    if a < b then true
    else if b < a then false
    else charListLe as bs

/-- Python string ordering. -/
def strLe (a b : String) : Bool := charListLe a.toList b.toList

/-- Python str.rstrip with a slash argument, used on the URL root in
CrudoAdmin init. -/
def rstripSlash (s : String) : String :=
  String.mk ((s.toList.reverse.dropWhile (fun c => c == '/')).reverse)

/-- Insert into a sorted list, keeping earlier equal elements first. -/
def insertOrd {α : Type} (le : α → α → Bool) (x : α) : List α → List α
  | [] => [x]
  | y :: ys => if le x y then x :: y :: ys else y :: insertOrd le x ys

/-- Insertion sort, modelling the sorted builtin used by admin.py. -/
def insertionSort {α : Type} (le : α → α → Bool) : List α → List α
  | [] => []
  | x :: xs => insertOrd le x (insertionSort le xs)

/-! ## Data model -/

/-- An HTTP error raised as fastapi HTTPException. -/
structure HttpError where
  status : Nat
  detail : String
deriving DecidableEq

/-- A failure of a request handler: either an HTTPException, or an
uncaught Python exception such as a KeyError. -/
inductive Failure where
  | http (e : HttpError)
  | py (msg : String)
deriving DecidableEq

/-- A database value.  The claims only need integer and string values;
SQL NULL is represented by absence from the record. -/
inductive Value where
  | vint (n : Int)
  | vstr (s : String)
deriving DecidableEq

/-- The SQLAlchemy autoincrement attribute of a column: True, False, the
string auto, or anything else. -/
inductive AutoInc where
  | isTrue
  | isFalse
  | autoVal
  | otherVal
deriving DecidableEq

/-- A SQLAlchemy column, carrying exactly the attributes the sources
inspect: the type-class name, the str() form of the type, the primary-key
and nullable flags, presence of server_default and of default, and the
autoincrement attribute. -/
structure Column where
  name : String
  typeName : String
  typeStr : String
  primaryKey : Bool
  nullable : Bool
  serverDefault : Bool
  clientDefault : Bool
  autoincrement : AutoInc
deriving DecidableEq

/-- A mapped SQLAlchemy model class: class name, table name, columns. -/
structure Model where
  className : String
  tablename : String
  columns : List Column
deriving DecidableEq

/-- A database record: an association list from column name to value. -/
abbrev Rec := List (String × Value)

/-- A database table content: a list of records. -/
abbrev Db := List Rec

/-- Attribute access on a record. -/
def lookupRec (r : Rec) (k : String) : Option Value := r.lookup k

/-- The session user stored under the crudo_user session key.  The role
entry is optional because require_admin_dep reads it with dict.get. -/
structure SessionUser where
  email : String
  name : String
  role : Option String
deriving DecidableEq

/-! ## auth.py -/

/-- require_auth from auth.py: return the session user or raise 401. -/
def require_auth (su : Option SessionUser) : Except Failure SessionUser :=
  match su with
  | none => .error (.http ⟨401, "Not authenticated"⟩)
  | some u => .ok u

/-- require_admin_dep from auth.py: require_auth, then 403 unless the
role entry of the user is admin. -/
def require_admin_dep (su : Option SessionUser) : Except Failure SessionUser :=
  match require_auth su with
  | .error e => .error e
  | .ok u =>
    if u.role == some "admin" then .ok u
    else .error (.http ⟨403, "Admin access required"⟩)

/-! ## router.py helpers -/

/-- convert_pk_value from router.py: an INT in the uppercased type-class
name routes the path string through int(), raising 400 on failure; any
other type passes the string through. -/
def convert_pk_value (value_str : String) (col : Column) : Except Failure Value :=
  if strContains (upperStr col.typeName) "INT" then
    match pyInt value_str with
    | some n => .ok (.vint n)
    | none => .error (.http ⟨400, "Invalid integer PK: " ++ value_str⟩)
  else
    .ok (.vstr value_str)

/-- The parts of a record identifier: split on the double dash separator
only when the model has more than one primary-key column. -/
def pk_parts (record_id : String) (pk_columns : List String) : List String :=
  if pk_columns.length > 1 then pySplit record_id "--" else [record_id]

/-- The 400 message raised by build_pk_filters on a length mismatch. -/
def expected_msg (nPk nParts : Nat) : String :=
  "Expected " ++ toString nPk ++ " PK value(s), got " ++ toString nParts

/-- Column lookup in the table of a model, modelling the subscript access
on table columns in build_pk_filters; a missing name is a Python
KeyError. -/
def find_col (m : Model) (n : String) : Option Column :=
  m.columns.find? fun c => c.name == n

/-- A list of primary-key filters: column name paired with the converted
value it must equal. -/
abbrev Filters := List (String × Value)

/-- The filter-building loop of build_pk_filters: for every pair of a
primary-key column name and the corresponding part of the identifier,
look the column up in the table and convert the part, collecting the
filters in order. -/
def build_filters_loop (m : Model) : List (String × String) → Except Failure Filters
  | [] => .ok []
  | p :: rest =>
    match find_col m p.1 with
    | none => .error (.py ("KeyError: " ++ p.1))
    | some c =>
      match convert_pk_value p.2 c with
      | .error e => .error e
      | .ok v =>
        match build_filters_loop m rest with
        | .error e => .error e
        | .ok fs => .ok ((p.1, v) :: fs)

/-- build_pk_filters from router.py. -/
def build_pk_filters (record_id : String) (m : Model) (pk_columns : List String) :
    Except Failure Filters :=
  let parts := pk_parts record_id pk_columns
  if parts.length ≠ pk_columns.length then
    .error (.http ⟨400, expected_msg pk_columns.length parts.length⟩)
  else
    build_filters_loop m (pk_columns.zip parts)

/-- Does a record satisfy every primary-key filter. -/
def matches_filters (fs : Filters) (r : Rec) : Bool :=
  fs.all fun f => lookupRec r f.1 == some f.2

/-! ## router.py list endpoint -/

/-- The uppercased type-class names the list handler searches with ilike. -/
def searchable_type_names : List String :=
  ["VARCHAR", "STRING", "TEXT", "NVARCHAR", "CHAR", "UNICODE", "UNICODETEXT", "CLOB"]

/-- Does a column take part in the global search: a plain string type, or
an enum cast to string. -/
def is_searchable_col (c : Column) : Bool :=
  searchable_type_names.contains (upperStr c.typeName)
    || upperStr c.typeName == "ENUM"

/-- Case-insensitive containment, modelling SQL ilike with the search
string wrapped in percent wildcards. -/
def ilike_contains (v : Value) (pat : String) : Bool :=
  match v with
  | .vint n => strContains (lowerStr (toString n)) (lowerStr pat)
  | .vstr s => strContains (lowerStr s) (lowerStr pat)

/-- The global-search filter of the list handler: with a non-empty search
string and at least one searchable column, keep the records where some
searchable column matches; SQL NULL never matches. -/
def apply_search (m : Model) (search : Option String) (db : Db) : Db :=
  match search with
  | none => db
  | some s =>
    if s = "" then db
    else
      let conds := m.columns.filter is_searchable_col
      if conds.isEmpty then db
      else
        db.filter fun r => conds.any fun c =>
          match lookupRec r c.name with
          | some v => ilike_contains v s
          | none => false

/-- SQL ordering on a nullable column value. -/
def value_le : Option Value → Option Value → Bool
  | none, _ => true
  | some _, none => false
  | some (.vint a), some (.vint b) => a ≤ b
  | some (.vstr a), some (.vstr b) => strLe a b
  | some (.vint _), some (.vstr _) => true
  | some (.vstr _), some (.vint _) => false

/-- The sorting step of the list handler: no sort_by, an empty sort_by or
an unknown column leaves the query order unchanged; otherwise order by the
column, descending exactly when sort_dir is desc. -/
def apply_sort (m : Model) (sort_by : Option String) (sort_dir : String) (db : Db) : Db :=
  match sort_by with
  | none => db
  | some sb =>
    if sb = "" then db
    else
      match m.columns.find? (fun c => c.name == sb) with
      | none => db
      | some _ =>
        if sort_dir = "desc" then
          insertionSort (fun a b => value_le (lookupRec b sb) (lookupRec a sb)) db
        else
          insertionSort (fun a b => value_le (lookupRec a sb) (lookupRec b sb)) db

/-- The JSON body returned by the list handler. -/
structure ListResponse where
  items : List Rec
  total : Nat
  page : Nat
  per_page : Nat
  pages : Nat
deriving DecidableEq

/-- list_records from router.py.  The leading range test models the
fastapi Query validation page ge 1, per_page ge 1 le 500, which rejects
the request with 422 before the handler body runs; then any authenticated
user may read.  Search filtering, count, sorting and offset-limit
pagination follow the handler body in order. -/
def list_records (m : Model) (su : Option SessionUser) (page per_page : Nat)
    (sort_by : Option String) (sort_dir : String) (search : Option String)
    (db : Db) : Except Failure ListResponse :=
  if page < 1 ∨ per_page < 1 ∨ 500 < per_page then
    .error (.http ⟨422, "Unprocessable Entity"⟩)
  else
    match require_auth su with
    | .error e => .error e
    | .ok _ =>
      let filtered := apply_search m search db
      let total := filtered.length
      let sorted := apply_sort m sort_by sort_dir filtered
      let items := (sorted.drop ((page - 1) * per_page)).take per_page
      let pages := max 1 ((total + per_page - 1) / per_page)
      .ok ⟨items, total, page, per_page, pages⟩

/-! ## router.py single-record endpoints

Each write handler takes the outcome of the commit as an explicit
argument commitExc: none models a successful commit, some exc a commit
that raised an exception with text exc.  A handler returns its response
together with the database state after the request; a rollback leaves the
original state. -/

/-- get_record from router.py: authenticate, build the primary-key
filters, query, 404 when nothing matches. -/
def get_record (m : Model) (pk_columns : List String) (record_id : String)
    (su : Option SessionUser) (db : Db) : Except Failure Rec :=
  match require_auth su with
  | .error e => .error e
  | .ok _ =>
    match build_pk_filters record_id m pk_columns with
    | .error e => .error e
    | .ok fs =>
      match db.find? (matches_filters fs) with
      | none => .error (.http ⟨404, "Record not found"⟩)
      | some r => .ok r

/-- create_record from router.py: admin only; add the new record and
commit, rolling back to the original state with a 400 carrying the
exception text when the commit raises. -/
def create_record (su : Option SessionUser) (commitExc : Option String)
    (db : Db) (values : Rec) : Except Failure Rec × Db :=
  match require_admin_dep su with
  | .error e => (.error e, db)
  | .ok _ =>
    match commitExc with
    | some exc => (.error (.http ⟨400, exc⟩), db)
    | none => (.ok values, db ++ [values])

/-- Python setattr on a record. -/
def set_attr (r : Rec) (k : String) (v : Value) : Rec :=
  match r with
  | [] => [(k, v)]
  | (k', v') :: rest => if k' == k then (k, v) :: rest else (k', v') :: set_attr rest k v

/-- Apply every field of the update payload to a record with setattr. -/
def apply_updates (r : Rec) (upd : Rec) : Rec :=
  upd.foldl (fun acc kv => set_attr acc kv.1 kv.2) r

/-- Replace the first record satisfying the predicate. -/
def replace_first (db : Db) (p : Rec → Bool) (r' : Rec) : Db :=
  match db with
  | [] => []
  | r :: rest => if p r then r' :: rest else r :: replace_first rest p r'

/-- Remove the first record satisfying the predicate. -/
def remove_first (db : Db) (p : Rec → Bool) : Db :=
  match db with
  | [] => []
  | r :: rest => if p r then rest else r :: remove_first rest p

/-- update_record from router.py: admin only; locate the record by its
primary-key filters, 404 when absent, apply the payload, then commit with
rollback to the original state and a 400 on failure. -/
def update_record (m : Model) (pk_columns : List String) (record_id : String)
    (su : Option SessionUser) (commitExc : Option String)
    (db : Db) (upd : Rec) : Except Failure Rec × Db :=
  match require_admin_dep su with
  | .error e => (.error e, db)
  | .ok _ =>
    match build_pk_filters record_id m pk_columns with
    | .error e => (.error e, db)
    | .ok fs =>
      match db.find? (matches_filters fs) with
      | none => (.error (.http ⟨404, "Record not found"⟩), db)
      | some r =>
        let r' := apply_updates r upd
        match commitExc with
        | some exc => (.error (.http ⟨400, exc⟩), db)
        | none => (.ok r', replace_first db (matches_filters fs) r')

/-- delete_record from router.py: admin only; locate the record, 404 when
absent, delete and commit with rollback and 400 on failure; a success
returns no body (HTTP 204). -/
def delete_record (m : Model) (pk_columns : List String) (record_id : String)
    (su : Option SessionUser) (commitExc : Option String)
    (db : Db) : Except Failure Unit × Db :=
  match require_admin_dep su with
  | .error e => (.error e, db)
  | .ok _ =>
    match build_pk_filters record_id m pk_columns with
    | .error e => (.error e, db)
    | .ok fs =>
      match db.find? (matches_filters fs) with
      | none => (.error (.http ⟨404, "Record not found"⟩), db)
      | some _ =>
        match commitExc with
        | some exc => (.error (.http ⟨400, exc⟩), db)
        | none => (.ok (), remove_first db (matches_filters fs))

/-! ## schema_factory.py -/

/-- The Python type a generated pydantic field is annotated with. -/
inductive PyType where
  | pyIntT
  | pyStrT
  | pyBoolT
  | pyFloatT
  | pyDatetimeT
  | pyDateT
  | pyTimeT
  | pyAnyT
  | pyListT
deriving DecidableEq

/-- SA_TYPE_MAP from schema_factory.py: uppercased SQLAlchemy type-class
name to json type string and Python type. -/
def SA_TYPE_MAP : List (String × String × PyType) :=
  [("INTEGER", ("integer", .pyIntT)),
   ("SMALLINT", ("integer", .pyIntT)),
   ("SMALLINTEGER", ("integer", .pyIntT)),
   ("BIGINT", ("integer", .pyIntT)),
   ("BIGINTEGER", ("integer", .pyIntT)),
   ("SERIAL", ("integer", .pyIntT)),
   ("BIGSERIAL", ("integer", .pyIntT)),
   ("VARCHAR", ("string", .pyStrT)),
   ("NVARCHAR", ("string", .pyStrT)),
   ("CHAR", ("string", .pyStrT)),
   ("NCHAR", ("string", .pyStrT)),
   ("STRING", ("string", .pyStrT)),
   ("TEXT", ("string", .pyStrT)),
   ("UNICODE", ("string", .pyStrT)),
   ("UNICODETEXT", ("string", .pyStrT)),
   ("CLOB", ("string", .pyStrT)),
   ("BOOLEAN", ("boolean", .pyBoolT)),
   ("FLOAT", ("number", .pyFloatT)),
   ("REAL", ("number", .pyFloatT)),
   ("DOUBLE", ("number", .pyFloatT)),
   ("DOUBLE_PRECISION", ("number", .pyFloatT)),
   ("NUMERIC", ("number", .pyFloatT)),
   ("DECIMAL", ("number", .pyFloatT)),
   ("DATETIME", ("datetime", .pyDatetimeT)),
   ("DATE", ("date", .pyDateT)),
   ("TIME", ("time", .pyTimeT)),
   ("TIMESTAMP", ("datetime", .pyDatetimeT)),
   ("ENUM", ("enum", .pyStrT)),
   ("JSON", ("json", .pyAnyT)),
   ("JSONB", ("json", .pyAnyT)),
   ("ARRAY", ("array", .pyListT)),
   ("UUID", ("string", .pyStrT)),
   ("BLOB", ("string", .pyStrT)),
   ("BYTEA", ("string", .pyStrT)),
   ("LARGEBINARY", ("string", .pyStrT)),
   ("INTERVAL", ("string", .pyStrT)),
   ("INET", ("string", .pyStrT)),
   ("CIDR", ("string", .pyStrT)),
   ("MACADDR", ("string", .pyStrT)),
   ("GEOMETRY", ("geometry", .pyAnyT)),
   ("GEOGRAPHY", ("geometry", .pyAnyT)),
   ("RASTER", ("geometry", .pyAnyT))]

/-- get_sa_type_info from schema_factory.py: table lookup on the
uppercased type-class name, then the ordered substring fallback on the
uppercased str() form of the type, defaulting to string. -/
def get_sa_type_info (c : Column) : String × PyType :=
  let type_name := upperStr c.typeName
  match SA_TYPE_MAP.lookup type_name with
  | some info => info
  | none =>
    let type_str := upperStr c.typeStr
    if strContains type_str "INT" then ("integer", .pyIntT)
    else if strContains type_str "CHAR" || strContains type_str "TEXT"
        || strContains type_str "CLOB" then ("string", .pyStrT)
    else if strContains type_str "BOOL" then ("boolean", .pyBoolT)
    else if strContains type_str "FLOAT" || strContains type_str "DOUBLE"
        || strContains type_str "NUMERIC" || strContains type_str "DECIMAL" then
      ("number", .pyFloatT)
    else if strContains type_str "TIMESTAMP" || strContains type_str "DATETIME" then
      ("datetime", .pyDatetimeT)
    else if strContains type_str "DATE" then ("date", .pyDateT)
    else if strContains type_str "TIME" then ("time", .pyTimeT)
    else if strContains type_str "JSON" then ("json", .pyAnyT)
    else if strContains type_str "UUID" then ("string", .pyStrT)
    else ("string", .pyStrT)

/-- Restatement of the words of claim C5, used only to compare against
the embedding of the source: the finite lookup table first, otherwise the
fixed ordered sequence of substring tests INT, CHAR or TEXT or CLOB,
BOOL, FLOAT or DOUBLE or NUMERIC or DECIMAL, TIMESTAMP or DATETIME,
DATE, TIME, JSON, UUID on the uppercased string form, with the string
type for everything that matches none of them. -/
def spec_type_info (c : Column) : String × PyType :=
  match SA_TYPE_MAP.lookup (upperStr c.typeName) with
  | some info => info
  | none =>
    let type_str := upperStr c.typeStr
    if strContains type_str "INT" then ("integer", .pyIntT)
    else if strContains type_str "CHAR" || strContains type_str "TEXT"
        || strContains type_str "CLOB" then ("string", .pyStrT)
    else if strContains type_str "BOOL" then ("boolean", .pyBoolT)
    else if strContains type_str "FLOAT" || strContains type_str "DOUBLE"
        || strContains type_str "NUMERIC" || strContains type_str "DECIMAL" then
      ("number", .pyFloatT)
    else if strContains type_str "TIMESTAMP" || strContains type_str "DATETIME" then
      ("datetime", .pyDatetimeT)
    else if strContains type_str "DATE" then ("date", .pyDateT)
    else if strContains type_str "TIME" then ("time", .pyTimeT)
    else if strContains type_str "JSON" then ("json", .pyAnyT)
    else if strContains type_str "UUID" then ("string", .pyStrT)
    else ("string", .pyStrT)

/-- is_auto_pk from schema_factory.py: the auto-generated primary-key
heuristic. -/
def is_auto_pk (c : Column) : Bool :=
  if !c.primaryKey then false
  else if c.serverDefault then true
  else if c.clientDefault then true
  else if c.autoincrement == AutoInc.isTrue then true
  else if c.autoincrement == AutoInc.autoVal then
    strContains (upperStr c.typeName) "INT"
  else false

/-- get_pk_columns from schema_factory.py. -/
def get_pk_columns (m : Model) : List String :=
  (m.columns.filter (fun c => c.primaryKey)).map (fun c => c.name)

/-- A generated pydantic field: its name, annotated Python type, and
whether it is required (the Ellipsis default) as opposed to optional with
default None. -/
structure FieldSpec where
  fname : String
  ftype : PyType
  required : Bool
deriving DecidableEq

/-- The Read schema field of a column: always optional. -/
def read_field (c : Column) : FieldSpec :=
  ⟨c.name, (get_sa_type_info c).2, false⟩

/-- The Update schema field of a column: always optional. -/
def update_field (c : Column) : FieldSpec :=
  ⟨c.name, (get_sa_type_info c).2, false⟩

/-- The Create schema field of a column: omitted for an auto-generated
primary key, optional when a default exists or the column is nullable,
required otherwise. -/
def create_field (c : Column) : Option FieldSpec :=
  if is_auto_pk c then none
  else if c.serverDefault || c.clientDefault || c.nullable then
    some ⟨c.name, (get_sa_type_info c).2, false⟩
  else
    some ⟨c.name, (get_sa_type_info c).2, true⟩

/-- The result of create_schemas_for_model: the three generated schemas
as field lists, plus the primary-key column names. -/
structure Schemas where
  read : List FieldSpec
  create : List FieldSpec
  update : List FieldSpec
  pk_columns : List String
deriving DecidableEq

/-- create_schemas_for_model from schema_factory.py. -/
def create_schemas_for_model (m : Model) : Schemas :=
  { read := m.columns.map read_field
    create := m.columns.filterMap create_field
    update := m.columns.map update_field
    pk_columns := get_pk_columns m }

/-! ## admin.py -/

/-- One entry of the models dict of CrudoAdmin.  The UI column metadata
that the source also stores is not needed by any claim and is omitted. -/
structure ModelEntry where
  model : Model
  model_name : String
  schemas : Schemas
deriving DecidableEq

/-- Normalisation of the include_models argument in CrudoAdmin init: a
falsy value (absent or empty list) disables the include filter. -/
def normalize_include (include_models : Option (List String)) : Option (List String) :=
  match include_models with
  | some l => if l.isEmpty then none else some l
  | none => none

/-- Normalisation of the exclude_models argument in CrudoAdmin init. -/
def normalize_exclude (exclude_models : Option (List String)) : List String :=
  match exclude_models with
  | some l => l
  | none => []

/-- Does a table name pass the include and exclude filters of
_discover_models. -/
def passes_filters (includeM : Option (List String)) (excludeM : List String)
    (tablename : String) : Bool :=
  (match includeM with
   | some l => l.contains tablename
   | none => true)
  && !(excludeM.contains tablename)

/-- _discover_models from admin.py, from the sorted iteration over the
found mapping onwards.  The found argument stands for the dict built from
the SQLAlchemy registry (or the subclass walk): table name to mapped
class, so its keys are distinct.  A model failing the filters or having
no primary-key column is skipped; the others get schemas and an entry. -/
def discover_models (found : List (String × Model))
    (includeM : Option (List String)) (excludeM : List String) :
    List (String × ModelEntry) :=
  (insertionSort (fun a b => strLe a.1 b.1) found).filterMap fun p =>
    if !(passes_filters includeM excludeM p.1) then none
    else if (get_pk_columns p.2).isEmpty then none
    else some (p.1, ⟨p.2, p.2.className, create_schemas_for_model p.2⟩)

/-- A registered route: HTTP method and full path. -/
structure Route where
  method : String
  path : String
deriving DecidableEq

/-- The five CRUD routes that create_crud_router registers, as included
under a base path. -/
def crud_routes (base : String) : List Route :=
  [⟨"GET", base⟩,
   ⟨"GET", base ++ "/\x7brecord_id:path\x7d"⟩,
   ⟨"POST", base⟩,
   ⟨"PUT", base ++ "/\x7brecord_id:path\x7d"⟩,
   ⟨"DELETE", base ++ "/\x7brecord_id:path\x7d"⟩]

/-- The authentication routes from create_auth_router. -/
def auth_routes (pfx : String) : List Route :=
  [⟨"POST", pfx ++ "/auth/login"⟩,
   ⟨"GET", pfx ++ "/auth/google"⟩,
   ⟨"GET", pfx ++ "/auth/google/callback"⟩,
   ⟨"GET", pfx ++ "/auth/me"⟩,
   ⟨"GET", pfx ++ "/auth/logout"⟩]

/-- _setup_routes from admin.py in the default configuration without
plugin actions: auth routes, the meta endpoint, the CRUD routes of every
registered model under pfx slash api slash tablename, and the HTML UI
routes. -/
def setup_routes (pfx : String) (models : List (String × ModelEntry)) : List Route :=
  auth_routes pfx
    ++ [⟨"GET", pfx ++ "/api/_meta/models"⟩]
    ++ models.flatMap (fun p => crud_routes (pfx ++ "/api/" ++ p.1))
    ++ [⟨"GET", pfx ++ "/login"⟩, ⟨"GET", pfx ++ "/"⟩, ⟨"GET", pfx⟩]

/-- The per-table configuration computed by CrudoAdmin construction. -/
structure CrudoState where
  models : List (String × ModelEntry)
  routes : List Route
deriving DecidableEq

/-- CrudoAdmin init from admin.py, restricted to the per-table
configuration the claims are about: normalise the filter arguments and
the URL root, discover the models once, register the routes once. -/
def crudo_init (found : List (String × Model))
    (include_models exclude_models : Option (List String))
    (pfxRaw : String) : CrudoState :=
  let includeM := normalize_include include_models
  let excludeM := normalize_exclude exclude_models
  let pfx := rstripSlash pfxRaw
  let models := discover_models found includeM excludeM
  { models := models, routes := setup_routes pfx models }

/-! ## Sample data used by the witness theorems -/

/-- An auto-incrementing integer primary-key column. -/
def idCol : Column := ⟨"id", "Integer", "INTEGER", true, false, false, false, .autoVal⟩

/-- A string primary-key column, part of a composite key. -/
def codeCol : Column := ⟨"code", "String", "VARCHAR(20)", true, false, false, false, .autoVal⟩

/-- A required plain string column. -/
def nameCol : Column := ⟨"name", "String", "VARCHAR(50)", false, false, false, false, .autoVal⟩

/-- A model with the single primary key id. -/
def itemModel : Model := ⟨"Item", "items", [idCol, nameCol]⟩

/-- A model with the composite primary key id, code. -/
def pairModel : Model := ⟨"Pair", "pairs", [idCol, codeCol, nameCol]⟩

/-- A session user with the admin role. -/
def adminUser : SessionUser := ⟨"a@example.com", "boss", some "admin"⟩

/-- A session user with the viewer role. -/
def viewerUser : SessionUser := ⟨"v@example.com", "guest", some "viewer"⟩

/-- A small items table. -/
def sampleDb : Db :=
  [[("id", .vint 1), ("name", .vstr "apple")],
   [("id", .vint 2), ("name", .vstr "pear")]]

/-! ## Helper lemmas -/

/-- Membership is preserved by sorted insertion. -/
theorem mem_insertOrd {α : Type} {le : α → α → Bool} {x y : α} {l : List α} :
    y ∈ insertOrd le x l ↔ y = x ∨ y ∈ l := by
  induction l with
  | nil => simp [insertOrd]
  | cons a as ih =>
    simp only [insertOrd]
    split
    · simp [List.mem_cons]
    · simp only [List.mem_cons, ih]
      tauto

/-- Membership is preserved by insertion sort. -/
theorem mem_insertionSort {α : Type} {le : α → α → Bool} {y : α} {l : List α} :
    y ∈ insertionSort le l ↔ y ∈ l := by
  induction l with
  | nil => simp [insertionSort]
  | cons a as ih => simp [insertionSort, mem_insertOrd, ih]

/-- In an association list with distinct keys, a key determines its
value. -/
theorem key_unique {α : Type} {l : List (String × α)}
    (h : (l.map Prod.fst).Nodup) {nm : String} {a b : α}
    (ha : (nm, a) ∈ l) (hb : (nm, b) ∈ l) : a = b := by
  induction l with
  | nil => cases ha
  | cons p t ih =>
    simp only [List.map_cons, List.nodup_cons] at h
    rcases List.mem_cons.mp ha with ha1 | ha1 <;>
      rcases List.mem_cons.mp hb with hb1 | hb1
    · rw [← ha1] at hb1
      simp only [Prod.mk.injEq] at hb1
      exact hb1.2.symm
    · exfalso
      apply h.1
      rw [← ha1]
      exact List.mem_map.mpr ⟨(nm, b), hb1, rfl⟩
    · exfalso
      apply h.1
      rw [← hb1]
      exact List.mem_map.mpr ⟨(nm, a), ha1, rfl⟩
    · exact ih h.2 ha1 hb1

/-- Every HTTPException produced by build_filters_loop carries status
400: the only HTTP error the loop can raise is the invalid-integer one. -/
theorem build_filters_loop_http_status {m : Model} {l : List (String × String)}
    {e : HttpError} (h : build_filters_loop m l = .error (.http e)) :
    e.status = 400 := by
  induction l with
  | nil => simp [build_filters_loop] at h
  | cons p rest ih =>
    simp only [build_filters_loop] at h
    split at h
    · simp at h
    · rename_i c hc
      split at h
      · rename_i e' he'
        simp only [Except.error.injEq] at h
        subst h
        unfold convert_pk_value at he'
        split at he'
        · split at he'
          · simp at he'
          · simp only [Except.error.injEq, Failure.http.injEq] at he'
            rw [← he']
        · simp at he'
      · split at h
        · rename_i e' he'
          simp only [Except.error.injEq] at h
          subst h
          exact ih he'
        · simp at h

/-- Every HTTPException produced by build_pk_filters carries status
400. -/
theorem build_pk_filters_http_status {rid : String} {m : Model}
    {pkcols : List String} {e : HttpError}
    (h : build_pk_filters rid m pkcols = .error (.http e)) : e.status = 400 := by
  simp only [build_pk_filters] at h
  split at h
  · simp only [Except.error.injEq, Failure.http.injEq] at h
    rw [← h]
  · exact build_filters_loop_http_status h

/-- The name of a generated Create field is the name of its column. -/
theorem create_field_name {c : Column} {f : FieldSpec}
    (h : create_field c = some f) : f.fname = c.name := by
  unfold create_field at h
  split at h
  · cases h
  · split at h <;> (simp only [Option.some.injEq] at h; rw [← h])

/-! ## Claim theorems -/

/-- Claim C1: with more than one primary-key column the record identifier
is split on the double-dash separator and paired positionally with the
primary-key columns in order; with exactly one primary-key column the
identifier is used whole, never split; and when the number of parts
differs from the number of primary-key columns, the get, update and
delete endpoints fail with HTTP 400 without querying the database — the
400 result of get_record is the same for every database, and update and
delete leave every database unchanged. -/
theorem composite_pk_parsing (rid : String) (m : Model) (pkcols : List String) :
    (pkcols.length > 1 → pk_parts rid pkcols = pySplit rid "--")
  ∧ (pkcols.length = 1 → pk_parts rid pkcols = [rid])
  ∧ ((pk_parts rid pkcols).length ≠ pkcols.length →
      build_pk_filters rid m pkcols =
        .error (.http ⟨400, expected_msg pkcols.length (pk_parts rid pkcols).length⟩)
    ∧ (∀ (u : SessionUser) (db : Db), get_record m pkcols rid (some u) db =
        .error (.http ⟨400, expected_msg pkcols.length (pk_parts rid pkcols).length⟩))
    ∧ (∀ (u : SessionUser) (db : Db) (upd : Rec) (cexc : Option String),
        u.role = some "admin" →
        update_record m pkcols rid (some u) cexc db upd =
          (.error (.http ⟨400, expected_msg pkcols.length (pk_parts rid pkcols).length⟩), db))
    ∧ (∀ (u : SessionUser) (db : Db) (cexc : Option String),
        u.role = some "admin" →
        delete_record m pkcols rid (some u) cexc db =
          (.error (.http ⟨400, expected_msg pkcols.length (pk_parts rid pkcols).length⟩), db))) := by
  refine ⟨fun h => ?_, fun h => ?_, fun hne => ?_⟩
  · simp [pk_parts, h]
  · have h1 : ¬ pkcols.length > 1 := by omega
    simp [pk_parts, h1]
  · have hb : build_pk_filters rid m pkcols =
        .error (.http ⟨400, expected_msg pkcols.length (pk_parts rid pkcols).length⟩) := by
      simp only [build_pk_filters]
      rw [if_pos hne]
    refine ⟨hb, ?_, ?_, ?_⟩
    · intro u db
      simp [get_record, require_auth, hb]
    · intro u db upd cexc hrole
      have hr : (u.role == some "admin") = true := by simp [hrole]
      simp [update_record, require_admin_dep, require_auth, hr, hb]
    · intro u db cexc hrole
      have hr : (u.role == some "admin") = true := by simp [hrole]
      simp [delete_record, require_admin_dep, require_auth, hr, hb]

/-- Witness for C1 at concrete inputs: a composite identifier is split on
the double dash, a single-column identifier containing a double dash is
used whole, and a two-part identifier against a three-column key yields
the 400 error on a concrete database without consulting it. -/
theorem composite_pk_parsing_witness :
    pk_parts "1--x" ["id", "code"] = ["1", "x"]
  ∧ pk_parts "a--b" ["id"] = ["a--b"]
  ∧ get_record pairModel ["id", "code"] "1--x--y" (some viewerUser) sampleDb =
      .error (.http ⟨400, "Expected 2 PK value(s), got 3"⟩) := by
  refine ⟨?_, ?_, ?_⟩
  · rw [(composite_pk_parsing "1--x" pairModel ["id", "code"]).1 (by decide)]
    decide
  · exact (composite_pk_parsing "a--b" itemModel ["id"]).2.1 (by decide)
  · have h := ((composite_pk_parsing "1--x--y" pairModel ["id", "code"]).2.2
      (by decide)).2.1 viewerUser sampleDb
    rw [h]
    rfl

/-- Claim C2: a primary-key column whose uppercased type-class name
contains INT has its path string coerced through int(), failing with
HTTP 400 exactly when the string is not a valid integer; every other
primary-key column passes the path string through unchanged and never
fails. -/
theorem pk_int_coercion (s : String) (c : Column) :
    (strContains (upperStr c.typeName) "INT" = true →
        (∀ n : Int, pyInt s = some n → convert_pk_value s c = .ok (.vint n))
      ∧ (pyInt s = none →
          convert_pk_value s c = .error (.http ⟨400, "Invalid integer PK: " ++ s⟩)))
  ∧ (strContains (upperStr c.typeName) "INT" = false →
      convert_pk_value s c = .ok (.vstr s)) := by
  refine ⟨fun hint => ⟨fun n hn => ?_, fun hn => ?_⟩, fun hstr => ?_⟩
  · simp [convert_pk_value, hint, hn]
  · simp [convert_pk_value, hint, hn]
  · simp [convert_pk_value, hstr]

/-- Witness for C2 at concrete inputs: an INTEGER column converts the
string 17 to the integer 17 and rejects 17a with 400, a VARCHAR column
passes a dashed string through unchanged. -/
theorem pk_int_coercion_witness :
    convert_pk_value "17" idCol = .ok (.vint 17)
  ∧ convert_pk_value "17a" idCol = .error (.http ⟨400, "Invalid integer PK: 17a"⟩)
  ∧ convert_pk_value "a--b" codeCol = .ok (.vstr "a--b") := by
  refine ⟨?_, ?_, ?_⟩
  · exact ((pk_int_coercion "17" idCol).1 (by decide)).1 17 (by decide)
  · exact ((pk_int_coercion "17a" idCol).1 (by decide)).2 (by decide)
  · exact (pk_int_coercion "a--b" codeCol).2 (by decide)

/-- Claim C3: the write endpoints raise 401 without a session user and
403 when the role is not admin, writing nothing to the database in either
case; the read endpoints raise 401 exactly when unauthenticated, succeed
for any authenticated user independently of role, and never raise 401 or
403 for an authenticated user. -/
theorem write_role_gating (m : Model) (pkcols : List String) (rid : String)
    (u : SessionUser) (cexc : Option String) (db : Db) (vals upd : Rec)
    (page per_page : Nat) (sb : Option String) (sd : String) (se : Option String)
    (hu : u.role ≠ some "admin")
    (h1 : 1 ≤ page) (h2 : 1 ≤ per_page) (h3 : per_page ≤ 500) :
    create_record none cexc db vals = (.error (.http ⟨401, "Not authenticated"⟩), db)
  ∧ update_record m pkcols rid none cexc db upd =
      (.error (.http ⟨401, "Not authenticated"⟩), db)
  ∧ delete_record m pkcols rid none cexc db =
      (.error (.http ⟨401, "Not authenticated"⟩), db)
  ∧ create_record (some u) cexc db vals =
      (.error (.http ⟨403, "Admin access required"⟩), db)
  ∧ update_record m pkcols rid (some u) cexc db upd =
      (.error (.http ⟨403, "Admin access required"⟩), db)
  ∧ delete_record m pkcols rid (some u) cexc db =
      (.error (.http ⟨403, "Admin access required"⟩), db)
  ∧ list_records m none page per_page sb sd se db =
      .error (.http ⟨401, "Not authenticated"⟩)
  ∧ get_record m pkcols rid none db = .error (.http ⟨401, "Not authenticated"⟩)
  ∧ (∃ resp, list_records m (some u) page per_page sb sd se db = .ok resp)
  ∧ (∀ u' : SessionUser, list_records m (some u) page per_page sb sd se db
      = list_records m (some u') page per_page sb sd se db)
  ∧ (∀ u' : SessionUser, get_record m pkcols rid (some u) db
      = get_record m pkcols rid (some u') db)
  ∧ (∀ e : HttpError, get_record m pkcols rid (some u) db = .error (.http e) →
      e.status ≠ 401 ∧ e.status ≠ 403) := by
  have hcond : ¬(page < 1 ∨ per_page < 1 ∨ 500 < per_page) := by omega
  have hr : (u.role == some "admin") = false := by
    simp only [beq_eq_false_iff_ne, ne_eq]
    exact hu
  refine ⟨?_, ?_, ?_, ?_, ?_, ?_, ?_, ?_, ?_, fun u' => rfl, fun u' => rfl, ?_⟩
  · simp [create_record, require_admin_dep, require_auth]
  · simp [update_record, require_admin_dep, require_auth]
  · simp [delete_record, require_admin_dep, require_auth]
  · simp [create_record, require_admin_dep, require_auth, hr]
  · simp [update_record, require_admin_dep, require_auth, hr]
  · simp [delete_record, require_admin_dep, require_auth, hr]
  · simp only [list_records]
    rw [if_neg hcond]
    rfl
  · simp [get_record, require_auth]
  · have hok : list_records m (some u) page per_page sb sd se db =
        .ok ⟨((apply_sort m sb sd (apply_search m se db)).drop
                ((page - 1) * per_page)).take per_page,
             (apply_search m se db).length, page, per_page,
             max 1 (((apply_search m se db).length + per_page - 1) / per_page)⟩ := by
      simp only [list_records]
      rw [if_neg hcond]
      rfl
    exact ⟨_, hok⟩
  · intro e he
    simp only [get_record, require_auth] at he
    split at he
    · rename_i e' hb
      simp only [Except.error.injEq] at he
      subst he
      have := build_pk_filters_http_status hb
      omega
    · split at he
      · simp only [Except.error.injEq, Failure.http.injEq] at he
        rw [← he]
        simp
      · simp at he

/-- Witness for C3 at concrete inputs: role gating of the Item endpoints
for the viewer user against the sample database. -/
theorem write_role_gating_witness :
    create_record none none sampleDb [("name", .vstr "fig")] =
      (.error (.http ⟨401, "Not authenticated"⟩), sampleDb)
  ∧ create_record (some viewerUser) none sampleDb [("name", .vstr "fig")] =
      (.error (.http ⟨403, "Admin access required"⟩), sampleDb)
  ∧ delete_record itemModel ["id"] "1" (some viewerUser) none sampleDb =
      (.error (.http ⟨403, "Admin access required"⟩), sampleDb)
  ∧ (∃ resp, list_records itemModel (some viewerUser) 1 25 none "asc" none sampleDb =
      .ok resp) := by
  have h := write_role_gating itemModel ["id"] "1" viewerUser none sampleDb
    [("name", .vstr "fig")] [("name", .vstr "fig")] 1 25 none "asc" none
    (by decide) (by decide) (by decide) (by decide)
  exact ⟨h.1, h.2.2.2.1, h.2.2.2.2.2.1, h.2.2.2.2.2.2.2.2.1⟩

/-- Claim C4: when the commit raises, each of the create, update and
delete handlers rolls the session back and fails with HTTP 400 carrying
the exception text, leaving the database state unchanged. -/
theorem commit_rollback_on_error (m : Model) (pkcols : List String) (rid : String)
    (u : SessionUser) (exc : String) (db : Db) (vals upd : Rec)
    (fs : Filters) (r : Rec)
    (hu : u.role = some "admin")
    (hf : build_pk_filters rid m pkcols = .ok fs)
    (hr : db.find? (matches_filters fs) = some r) :
    create_record (some u) (some exc) db vals = (.error (.http ⟨400, exc⟩), db)
  ∧ update_record m pkcols rid (some u) (some exc) db upd =
      (.error (.http ⟨400, exc⟩), db)
  ∧ delete_record m pkcols rid (some u) (some exc) db =
      (.error (.http ⟨400, exc⟩), db) := by
  have hbeq : (u.role == some "admin") = true := by simp [hu]
  refine ⟨?_, ?_, ?_⟩
  · simp [create_record, require_admin_dep, require_auth, hbeq]
  · simp [update_record, require_admin_dep, require_auth, hbeq, hf, hr]
  · simp [delete_record, require_admin_dep, require_auth, hbeq, hf, hr]

/-- Witness for C4 at concrete inputs: a failing commit with text boom
rolls back all three writes on the sample database. -/
theorem commit_rollback_on_error_witness :
    create_record (some adminUser) (some "boom") sampleDb [("name", .vstr "fig")] =
      (.error (.http ⟨400, "boom"⟩), sampleDb)
  ∧ update_record itemModel ["id"] "1" (some adminUser) (some "boom") sampleDb
      [("name", .vstr "fig")] = (.error (.http ⟨400, "boom"⟩), sampleDb)
  ∧ delete_record itemModel ["id"] "1" (some adminUser) (some "boom") sampleDb =
      (.error (.http ⟨400, "boom"⟩), sampleDb) :=
  commit_rollback_on_error itemModel ["id"] "1" adminUser "boom" sampleDb
    [("name", .vstr "fig")] [("name", .vstr "fig")]
    [("id", .vint 1)] [("id", .vint 1), ("name", .vstr "apple")]
    rfl (by rfl) (by rfl)

/-- Claim C5: column-type mapping is total and is exactly the finite
lookup table followed by the fixed ordered fallback sequence of substring
tests with the string default; the embedding of the source function
coincides with the restatement of the claim on every column. -/
theorem type_info_matches_spec : ∀ c : Column, get_sa_type_info c = spec_type_info c :=
  fun _ => rfl

/-- Claim C6: a column is classified as an auto-generated primary key
exactly when it is a primary key and has a server default, a client
default, autoincrement True, or autoincrement auto with an INT type-class
name; every such column is omitted from the generated Create schema. -/
theorem auto_pk_detection (m : Model) (c : Column) :
    (is_auto_pk c = true ↔
      (c.primaryKey = true ∧
        (c.serverDefault = true ∨ c.clientDefault = true ∨
          c.autoincrement = AutoInc.isTrue ∨
          (c.autoincrement = AutoInc.autoVal ∧
            strContains (upperStr c.typeName) "INT" = true))))
  ∧ (is_auto_pk c = true → create_field c = none)
  ∧ ((m.columns.map Column.name).Nodup → c ∈ m.columns → is_auto_pk c = true →
      c.name ∉ (create_schemas_for_model m).create.map FieldSpec.fname) := by
  refine ⟨?_, fun h => by simp [create_field, h], fun hnd hc hauto hmem => ?_⟩
  · obtain ⟨nm, tn, ts, pk, nul, sd, cd, ai⟩ := c
    cases pk <;> cases sd <;> cases cd <;> cases ai <;>
      simp [is_auto_pk]
  · rcases List.mem_map.mp hmem with ⟨f, hf, hfname⟩
    rcases List.mem_filterMap.mp hf with ⟨c', hc', hcf⟩
    have hname : c'.name = c.name := by rw [← hfname, create_field_name hcf]
    have : c' = c := by
      have hinj := List.inj_on_of_nodup_map hnd
      exact hinj hc' hc hname
    rw [this] at hcf
    simp [create_field, hauto] at hcf

/-- Witness for C6 at concrete inputs: the id column of the Item model is
an auto primary key, satisfies the characterisation, and its name is
absent from the generated Create schema. -/
theorem auto_pk_detection_witness :
    is_auto_pk idCol = true
  ∧ create_field idCol = none
  ∧ "id" ∉ (create_schemas_for_model itemModel).create.map FieldSpec.fname := by
  have h := auto_pk_detection itemModel idCol
  refine ⟨?_, h.2.1 (by decide), ?_⟩
  · exact h.1.mpr (by decide)
  · exact h.2.2 (by decide) (by decide) (by decide)

/-- Claim C9: every field of the generated Read and Update schemas is
optional (default None) and the two schemas list every column of the
model; a non-auto-PK column yields a required Create field exactly when
it is non-nullable and has neither client nor server default, and an
optional Create field otherwise, that field being part of the Create
schema. -/
theorem create_required_fields (m : Model) (c : Column) :
    (∀ f ∈ (create_schemas_for_model m).read, f.required = false)
  ∧ (∀ f ∈ (create_schemas_for_model m).update, f.required = false)
  ∧ (create_schemas_for_model m).read.map FieldSpec.fname = m.columns.map Column.name
  ∧ (create_schemas_for_model m).update.map FieldSpec.fname = m.columns.map Column.name
  ∧ (is_auto_pk c = false →
      ((create_field c = some ⟨c.name, (get_sa_type_info c).2, true⟩ ↔
        (c.nullable = false ∧ c.clientDefault = false ∧ c.serverDefault = false))
      ∧ (create_field c = some ⟨c.name, (get_sa_type_info c).2, false⟩ ↔
        ¬(c.nullable = false ∧ c.clientDefault = false ∧ c.serverDefault = false))))
  ∧ (c ∈ m.columns → ∀ f : FieldSpec, create_field c = some f →
      f ∈ (create_schemas_for_model m).create) := by
  refine ⟨?_, ?_, ?_, ?_, fun hauto => ?_, fun hc f hf => ?_⟩
  · intro f hf
    rcases List.mem_map.mp hf with ⟨c', _, hc'⟩
    rw [← hc']
    rfl
  · intro f hf
    rcases List.mem_map.mp hf with ⟨c', _, hc'⟩
    rw [← hc']
    rfl
  · simp [create_schemas_for_model, List.map_map]
    intro a _
    rfl
  · simp [create_schemas_for_model, List.map_map]
    intro a _
    rfl
  · obtain ⟨nm, tn, ts, pk, nul, sd, cd, ai⟩ := c
    cases nul <;> cases sd <;> cases cd <;>
      simp_all [create_field]
  · exact List.mem_filterMap.mpr ⟨c, hc, hf⟩

/-- Witness for C9 at concrete inputs: in the Item schemas the read
fields are optional, the required name column yields a required Create
field that is part of the Create schema, and the iff characterisation
holds for the name column. -/
theorem create_required_fields_witness :
    (∀ f ∈ (create_schemas_for_model itemModel).read, f.required = false)
  ∧ create_field nameCol = some ⟨"name", PyType.pyStrT, true⟩
  ∧ (⟨"name", PyType.pyStrT, true⟩ : FieldSpec) ∈
      (create_schemas_for_model itemModel).create := by
  have h := create_required_fields itemModel nameCol
  have hreq : create_field nameCol = some ⟨"name", PyType.pyStrT, true⟩ :=
    (h.2.2.2.2.1 (by decide)).1.mpr (by decide)
  exact ⟨h.1, hreq, h.2.2.2.2.2 (by decide) _ hreq⟩

/-- Claim C7: all per-table configuration happens during construction.
Every entry of the models mapping computed by crudo_init carries schemas
built by create_schemas_for_model, and its five CRUD routes under the
normalised root slash api slash tablename are among the routes registered
by construction; conversely every discovered model that passes the
include and exclude filters and has a primary key yields such an entry.
Per-request dispatch is modelled by the pure endpoint functions, which
take no part in route registration or schema construction. -/
theorem startup_registration (found : List (String × Model))
    (include_models exclude_models : Option (List String)) (pfxRaw : String)
    (nm : String) (entry : ModelEntry) (mo : Model) :
    ((nm, entry) ∈ (crudo_init found include_models exclude_models pfxRaw).models →
        entry.schemas = create_schemas_for_model entry.model
      ∧ entry.model_name = entry.model.className
      ∧ ∀ r ∈ crud_routes (rstripSlash pfxRaw ++ "/api/" ++ nm),
          r ∈ (crudo_init found include_models exclude_models pfxRaw).routes)
  ∧ ((nm, mo) ∈ found →
      passes_filters (normalize_include include_models)
        (normalize_exclude exclude_models) nm = true →
      get_pk_columns mo ≠ [] →
      (nm, ⟨mo, mo.className, create_schemas_for_model mo⟩) ∈
        (crudo_init found include_models exclude_models pfxRaw).models) := by
  constructor
  · intro hmem
    have hmem' := hmem
    simp only [crudo_init, discover_models] at hmem'
    rcases List.mem_filterMap.mp hmem' with ⟨p, _, hstep⟩
    have hent : nm = p.1 ∧ entry = ⟨p.2, p.2.className, create_schemas_for_model p.2⟩ := by
      split at hstep
      · cases hstep
      · split at hstep
        · cases hstep
        · simp only [Option.some.injEq, Prod.mk.injEq] at hstep
          exact ⟨hstep.1.symm, hstep.2.symm⟩
    refine ⟨by rw [hent.2], by rw [hent.2], fun r hr => ?_⟩
    simp only [crudo_init, setup_routes]
    refine List.mem_append.mpr (Or.inl (List.mem_append.mpr (Or.inr ?_)))
    exact List.mem_flatMap.mpr ⟨(nm, entry), hmem, hr⟩
  · intro hfound hpass hpk
    simp only [crudo_init, discover_models]
    refine List.mem_filterMap.mpr ⟨(nm, mo), mem_insertionSort.mpr hfound, ?_⟩
    have hpk' : (get_pk_columns mo).isEmpty = false := by
      cases hg : get_pk_columns mo with
      | nil => exact absurd hg hpk
      | cons a l => rfl
    simp [hpass, hpk']

/-- Witness for C7 at concrete inputs: constructing with the Item and
Pair models, no filters and the default root registers the Pair entry
with its schemas, its GET collection route is present, and the Item model
passing the filters yields its entry. -/
theorem startup_registration_witness :
    (⟨"GET", "/crudo/api/pairs"⟩ : Route) ∈
      (crudo_init [("items", itemModel), ("pairs", pairModel)]
        none none "/crudo").routes
  ∧ ("items", ⟨itemModel, "Item", create_schemas_for_model itemModel⟩) ∈
      (crudo_init [("items", itemModel), ("pairs", pairModel)]
        none none "/crudo").models := by
  have h := startup_registration [("items", itemModel), ("pairs", pairModel)]
    none none "/crudo" "pairs"
    ⟨pairModel, "Pair", create_schemas_for_model pairModel⟩ pairModel
  have h2 := startup_registration [("items", itemModel), ("pairs", pairModel)]
    none none "/crudo" "items"
    ⟨itemModel, "Item", create_schemas_for_model itemModel⟩ itemModel
  have hmemi : ("items", (⟨itemModel, "Item", create_schemas_for_model itemModel⟩ :
      ModelEntry)) ∈ (crudo_init [("items", itemModel), ("pairs", pairModel)]
        none none "/crudo").models :=
    h2.2 (by simp) (by decide) (by decide)
  have hmemp : ("pairs", (⟨pairModel, "Pair", create_schemas_for_model pairModel⟩ :
      ModelEntry)) ∈ (crudo_init [("items", itemModel), ("pairs", pairModel)]
        none none "/crudo").models :=
    h.2 (by simp) (by decide) (by decide)
    -- the GET collection route is the head of crud_routes for the pairs base
  exact ⟨(h.1 hmemp).2.2 ⟨"GET", "/crudo/api/pairs"⟩ (by decide), hmemi⟩

/-- Claim C8: every model registered by discovery has a non-empty list of
primary-key columns, both on the model itself and in the schemas the CRUD
router receives; a mapped class whose table has no primary-key column is
silently skipped and yields no entry at all. -/
theorem registered_models_have_pk (found : List (String × Model))
    (includeM : Option (List String)) (excludeM : List String)
    (nm : String) (mo : Model) :
    (∀ p ∈ discover_models found includeM excludeM,
        get_pk_columns p.2.model ≠ []
      ∧ p.2.schemas.pk_columns = get_pk_columns p.2.model
      ∧ p.2.schemas.pk_columns ≠ [])
  ∧ ((found.map Prod.fst).Nodup → (nm, mo) ∈ found → get_pk_columns mo = [] →
      ∀ e : ModelEntry, (nm, e) ∉ discover_models found includeM excludeM) := by
  constructor
  · intro p hp
    simp only [discover_models] at hp
    rcases List.mem_filterMap.mp hp with ⟨q, _, hstep⟩
    split at hstep
    · cases hstep
    · split at hstep
      · cases hstep
      · rename_i hpk
        simp only [Option.some.injEq] at hstep
        have hq : p.2.model = q.2 := by rw [← hstep]
        have hpk' : get_pk_columns q.2 ≠ [] := by
          intro hnil
          rw [hnil] at hpk
          exact hpk rfl
        have hsch : p.2.schemas = create_schemas_for_model q.2 := by rw [← hstep]
        refine ⟨by rw [hq]; exact hpk', ?_, ?_⟩
        · rw [hsch, hq]
          rfl
        · rw [hsch]
          show get_pk_columns q.2 ≠ []
          exact hpk'
  · intro hnd hfound hnopk e hmem
    simp only [discover_models] at hmem
    rcases List.mem_filterMap.mp hmem with ⟨q, hq, hstep⟩
    have hq' : q ∈ found := mem_insertionSort.mp hq
    have hkey : q.1 = nm ∧ get_pk_columns q.2 ≠ [] := by
      split at hstep
      · cases hstep
      · split at hstep
        · cases hstep
        · rename_i hpk
          simp only [Option.some.injEq, Prod.mk.injEq] at hstep
          refine ⟨hstep.1, fun hnil => ?_⟩
          rw [hnil] at hpk
          exact hpk rfl
    have hqpair : (nm, q.2) ∈ found := by
      have : q = (nm, q.2) := by
        rw [← hkey.1]
      rw [← this]
      exact hq'
    have : q.2 = mo := key_unique hnd hqpair hfound
    rw [this] at hkey
    exact hkey.2 hnopk

/-- Witness for C8 at concrete inputs: discovery over the Item model and
a model without primary key registers only the former, and the
keyless table gets no entry. -/
theorem registered_models_have_pk_witness :
    (∀ p ∈ discover_models
        [("items", itemModel), ("logs", ⟨"Log", "logs", [nameCol]⟩)] none [],
        get_pk_columns p.2.model ≠ [])
  ∧ (∀ e : ModelEntry, ("logs", e) ∉ discover_models
      [("items", itemModel), ("logs", ⟨"Log", "logs", [nameCol]⟩)] none []) := by
  have h := registered_models_have_pk
    [("items", itemModel), ("logs", ⟨"Log", "logs", [nameCol]⟩)] none []
    "logs" ⟨"Log", "logs", [nameCol]⟩
  exact ⟨fun p hp => (h.1 p hp).1, h.2 (by decide) (by simp) (by decide)⟩

/-- Claim C10: pagination is exact integer arithmetic.  Query validation
constrains per_page to 1..500 and page to at least 1 (422 otherwise); on
valid input the returned items are exactly the slice of the filtered and
sorted query starting at offset (page - 1) * per_page of length at most
per_page, element i of the items being element offset + i of the query,
and the pages field equals the ceiling of total / per_page, at least 1:
it is the least number of pages at least 1 whose product with per_page
covers total. -/
theorem pagination_exact (m : Model) (u : SessionUser) (page per_page : Nat)
    (sb : Option String) (sd : String) (se : Option String) (db : Db) :
    ((page < 1 ∨ per_page < 1 ∨ 500 < per_page) →
      list_records m (some u) page per_page sb sd se db =
        .error (.http ⟨422, "Unprocessable Entity"⟩))
  ∧ (1 ≤ page → 1 ≤ per_page → per_page ≤ 500 →
      ∃ resp, list_records m (some u) page per_page sb sd se db = .ok resp
      ∧ resp.total = (apply_search m se db).length
      ∧ resp.page = page
      ∧ resp.per_page = per_page
      ∧ resp.items = ((apply_sort m sb sd (apply_search m se db)).drop
          ((page - 1) * per_page)).take per_page
      ∧ resp.items.length =
          min per_page ((apply_sort m sb sd (apply_search m se db)).length
            - (page - 1) * per_page)
      ∧ resp.items.length ≤ per_page
      ∧ (∀ i, i < resp.items.length →
          resp.items[i]? =
            (apply_sort m sb sd (apply_search m se db))[(page - 1) * per_page + i]?)
      ∧ resp.pages = max 1 ((resp.total + per_page - 1) / per_page)
      ∧ 1 ≤ resp.pages
      ∧ resp.total ≤ resp.pages * per_page
      ∧ (∀ q, 1 ≤ q → resp.total ≤ q * per_page → resp.pages ≤ q)) := by
  constructor
  · intro h
    simp only [list_records]
    rw [if_pos h]
  · intro h1 h2 h3
    have hcond : ¬(page < 1 ∨ per_page < 1 ∨ 500 < per_page) := by omega
    have hpp : 0 < per_page := h2
    refine ⟨⟨((apply_sort m sb sd (apply_search m se db)).drop
        ((page - 1) * per_page)).take per_page,
      (apply_search m se db).length, page, per_page,
      max 1 (((apply_search m se db).length + per_page - 1) / per_page)⟩,
      ?_, rfl, rfl, rfl, rfl, ?_, ?_, ?_, rfl, ?_, ?_, ?_⟩
    · simp only [list_records]
      rw [if_neg hcond]
      rfl
    · simp [List.length_take, List.length_drop]
    · simp only [List.length_take, List.length_drop]
      exact Nat.min_le_left _ _
    · intro i hi
      simp only [List.length_take, List.length_drop] at hi
      have hi2 : i < (apply_sort m sb sd (apply_search m se db)).length
          - (page - 1) * per_page := lt_of_lt_of_le hi (Nat.min_le_right _ _)
      have hi3 : i < ((apply_sort m sb sd (apply_search m se db)).drop
          ((page - 1) * per_page)).length := by
        simp only [List.length_drop]
        omega
      have hi4 : i < (((apply_sort m sb sd (apply_search m se db)).drop
          ((page - 1) * per_page)).take per_page).length := by
        simp only [List.length_take, List.length_drop]
        exact hi
      have hi5 : (page - 1) * per_page + i <
          (apply_sort m sb sd (apply_search m se db)).length := by omega
      have e1 : (((apply_sort m sb sd (apply_search m se db)).drop
            ((page - 1) * per_page)).take per_page).get ⟨i, hi4⟩ =
          ((apply_sort m sb sd (apply_search m se db)).drop
            ((page - 1) * per_page)).get ⟨i, hi3⟩ := List.getElem_take ..
      have e2 : ((apply_sort m sb sd (apply_search m se db)).drop
            ((page - 1) * per_page)).get ⟨i, hi3⟩ =
          (apply_sort m sb sd (apply_search m se db)).get
            ⟨(page - 1) * per_page + i, hi5⟩ := List.getElem_drop ..
      rw [List.getElem?_eq_getElem hi4, List.getElem?_eq_getElem hi5]
      exact congrArg some (e1.trans e2)
    · exact Nat.le_max_left 1 _
    · show (apply_search m se db).length ≤
        max 1 (((apply_search m se db).length + per_page - 1) / per_page) * per_page
      have hd : ((apply_search m se db).length + per_page - 1) / per_page ≤
          ((apply_search m se db).length + per_page - 1) / per_page := le_refl _
      have hle := (Nat.div_le_iff_le_mul_add_pred hpp).mp hd
      have hq : ((apply_search m se db).length + per_page - 1) / per_page ≤
          max 1 (((apply_search m se db).length + per_page - 1) / per_page) :=
        Nat.le_max_right _ _
      have hmul : per_page * (((apply_search m se db).length + per_page - 1) / per_page)
          ≤ per_page * max 1 (((apply_search m se db).length + per_page - 1) / per_page) :=
        Nat.mul_le_mul_left _ hq
      rw [Nat.mul_comm (max 1 (((apply_search m se db).length + per_page - 1) / per_page))
        per_page]
      generalize per_page * (((apply_search m se db).length + per_page - 1) / per_page)
        = A at *
      generalize per_page * max 1 (((apply_search m se db).length + per_page - 1) / per_page)
        = B at *
      omega
    · intro q hq1 hq2
      show max 1 (((apply_search m se db).length + per_page - 1) / per_page) ≤ q
      have hq2' : (apply_search m se db).length ≤ q * per_page := hq2
      refine Nat.max_le.mpr ⟨hq1, ?_⟩
      rw [Nat.div_le_iff_le_mul_add_pred hpp]
      rw [Nat.mul_comm q per_page] at hq2'
      generalize per_page * q = B at *
      omega

/-- Witness for C10 at concrete inputs: page 0 is rejected with 422, and
page 2 with one item per page over the two-record sample table returns
the second record with total 2 and pages 2. -/
theorem pagination_exact_witness :
    list_records itemModel (some viewerUser) 0 25 none "asc" none sampleDb =
      .error (.http ⟨422, "Unprocessable Entity"⟩)
  ∧ list_records itemModel (some viewerUser) 2 1 none "asc" none sampleDb =
      .ok ⟨[[("id", .vint 2), ("name", .vstr "pear")]], 2, 2, 1, 2⟩ := by
  refine ⟨(pagination_exact itemModel viewerUser 0 25 none "asc" none sampleDb).1
    (by omega), ?_⟩
  rfl

end Crudo
